import Mathlib

/-!
Verification of the RTSP Authorization credential builder
(src/projects/modules/rtsp/header_fields/rtsp_header_authorization.h).

The builder constructs Basic and Digest Authorization header values.
The cryptographic and encoding primitives (message digest, hex rendering,
base64) live outside the supplied sources and are modelled from the spec:
the digest is an abstract parameter (a function from byte sequences to
byte sequences), hex rendering is lowercase hex, base64 is standard
RFC 4648 base64 with padding.
-/

/-- The sixteen lowercase hexadecimal digit characters. -/
def hexCharsLower : List Char :=
  "0123456789abcdef".data

/-- Modelled from the spec: lowercase hexadecimal digit for a nibble.
The nibble is reduced mod 16 so the function is total on Nat. -/
def hexDigitLower (n : Nat) : Char :=
  hexCharsLower.getD (n % 16) '0'

/-- Modelled from the spec: rendering of digest bytes as a lowercase hex
string, two digits per byte (the Digest/Encoding Service contract
"digest bytes to lowercase hex string"). -/
def ToHexString (bs : List Nat) : String :=
  ⟨bs.flatMap (fun b => [hexDigitLower (b / 16), hexDigitLower b])⟩

/-- Modelled from the spec: ov String LowerCaseString, mapping every
character to lowercase. -/
def LowerCaseString (s : String) : String :=
  ⟨s.data.map Char.toLower⟩

/-- Modelled from the spec: UTF-8 encoding of a single code point as a
byte list (the "as UTF-8 bytes" conversion of the derivation formulas). -/
def utf8EncodeChar (n : Nat) : List Nat :=
  if n < 0x80 then [n]
  else if n < 0x800 then [0xC0 + n / 64, 0x80 + n % 64]
  else if n < 0x10000 then [0xE0 + n / 4096, 0x80 + n / 64 % 64, 0x80 + n % 64]
  else [0xF0 + n / 262144, 0x80 + n / 4096 % 64, 0x80 + n / 64 % 64, 0x80 + n % 64]

/-- Modelled from the spec: the UTF-8 bytes of a string. -/
def utf8Bytes (s : String) : List Nat :=
  s.data.flatMap (fun c => utf8EncodeChar c.toNat)

/-- The standard base64 alphabet. -/
def base64Table : List Char :=
  "ABCDEFGHIJKLMNOPQRSTUVWXYZabcdefghijklmnopqrstuvwxyz0123456789+/".data

/-- Character for a sextet value. -/
def sextetChar (n : Nat) : Char :=
  base64Table.getD n 'A'

/-- Sextet value of an alphabet character. -/
def charSextet (c : Char) : Nat :=
  base64Table.indexOf c

/-- Modelled from the spec: standard base64 encoding of a byte list
(the Digest/Encoding Service contract "bytes to base64 text"),
three bytes per four output characters, padded with '='. -/
def base64EncodeChars : List Nat → List Char
  | [] => []
  | [a] =>
      [sextetChar (a / 4), sextetChar (a % 4 * 16), '=', '=']
  | [a, b] =>
      [sextetChar (a / 4), sextetChar (a % 4 * 16 + b / 16),
       sextetChar (b % 16 * 4), '=']
  | a :: b :: c :: rest =>
      sextetChar (a / 4) :: sextetChar (a % 4 * 16 + b / 16) ::
      sextetChar (b % 16 * 4 + c / 64) :: sextetChar (c % 64) ::
      base64EncodeChars rest

/-- Modelled from the spec: ov Base64 Encode, bytes to base64 text. -/
def Base64Encode (bs : List Nat) : String :=
  ⟨base64EncodeChars bs⟩

/-- Standard base64 decoding of a character list back to bytes,
honouring '=' padding. -/
def base64DecodeChars : List Char → List Nat
  | c0 :: c1 :: c2 :: c3 :: rest =>
      let s0 := charSextet c0
      let s1 := charSextet c1
      if c2 = '=' then
        [s0 * 4 + s1 / 16]
      else
        let s2 := charSextet c2
        if c3 = '=' then
          [s0 * 4 + s1 / 16, s1 % 16 * 16 + s2 / 4]
        else
          (s0 * 4 + s1 / 16) :: (s1 % 16 * 16 + s2 / 4) ::
          (s2 % 4 * 64 + charSextet c3) :: base64DecodeChars rest
  | _ => []

namespace RtspHeaderWWWAuthenticateField

/-- Scheme of an authenticate/authorization field
(rtsp_header_authenticate.h). -/
inductive Scheme where
  | Basic
  | Digest
  | Unknown
deriving DecidableEq, Repr

/-- Modelled from the spec: the canonical scheme name token used verbatim
as the prefix of the rendered Authorization value. -/
def GetSchemeString : Scheme → String
  | .Basic => "Basic"
  | .Digest => "Digest"
  | .Unknown => "Unknown"

end RtspHeaderWWWAuthenticateField

open RtspHeaderWWWAuthenticateField (Scheme GetSchemeString)

/-- The state of an RtspHeaderAuthorizationField object: its scheme, the
structured inputs, the derived response, and the wire value stored by
SetContent on the header-field base (modelled from the spec section 4.1:
SetContent stores the wire-rendered string for this field instance). -/
structure RtspHeaderAuthorizationField where
  scheme : Scheme
  username : String
  password : String
  method : String
  realm : String
  nonce : String
  uri : String
  response : String
  value : String
deriving DecidableEq, Repr

namespace RtspHeaderAuthorizationField

/-- The default constructor: scheme is set to Unknown; every ov String
member default-constructs to the empty string, and no content has been
stored on the base field. -/
def init : RtspHeaderAuthorizationField :=
  { scheme := Scheme.Unknown
    username := ""
    password := ""
    method := ""
    realm := ""
    nonce := ""
    uri := ""
    response := ""
    value := "" }

/-- SetBasicAuth: sets scheme Basic, stores username and password,
derives response as base64 of "username:password", and stores the wire
value "Basic response" via SetContent. -/
def SetBasicAuth (f : RtspHeaderAuthorizationField)
    (username password : String) : RtspHeaderAuthorizationField :=
  let scheme := Scheme.Basic
  let response := Base64Encode (utf8Bytes (username ++ ":" ++ password))
  let value := GetSchemeString scheme ++ " " ++ response
  { f with
    scheme := scheme
    username := username
    password := password
    response := response
    value := value }

/-- SetDigestAuth: sets scheme Digest, stores all six inputs, derives
the response by the nested digest computation of the source (HA1 and HA2
hex strings joined with the nonce, digested again), and stores the
rendered wire value via SetContent. The digest itself (ov MessageDigest
ComputeDigest with Md5) is an abstract parameter. -/
def SetDigestAuth (md5 : List Nat → List Nat)
    (f : RtspHeaderAuthorizationField)
    (username password method realm uri nonce : String) :
    RtspHeaderAuthorizationField :=
  let scheme := Scheme.Digest
  let ha1 := username ++ ":" ++ realm ++ ":" ++ password
  let ha1_md5 := md5 (utf8Bytes ha1)
  let ha2 := method ++ ":" ++ uri
  let ha2_md5 := md5 (utf8Bytes ha2)
  let response0 :=
    LowerCaseString (ToHexString ha1_md5) ++ ":" ++ nonce ++ ":" ++
    LowerCaseString (ToHexString ha2_md5)
  let response := LowerCaseString (ToHexString (md5 (utf8Bytes response0)))
  let value :=
    GetSchemeString scheme ++ " username=\"" ++ username ++
    "\", realm=\"" ++ realm ++
    "\", nonce=\"" ++ nonce ++
    "\", uri=\"" ++ uri ++
    "\", response=\"" ++ response ++ "\""
  { f with
    scheme := scheme
    username := username
    password := password
    method := method
    realm := realm
    uri := uri
    nonce := nonce
    response := response
    value := value }

/-- UpdateDigestAuth: delegates to SetDigestAuth with the stored
username, password, realm and nonce and the new method and uri. -/
def UpdateDigestAuth (md5 : List Nat → List Nat)
    (f : RtspHeaderAuthorizationField) (method uri : String) :
    RtspHeaderAuthorizationField :=
  SetDigestAuth md5 f f.username f.password method f.realm uri f.nonce

/-- GetScheme accessor. -/
def GetScheme (f : RtspHeaderAuthorizationField) : Scheme := f.scheme

/-- GetUsername accessor. -/
def GetUsername (f : RtspHeaderAuthorizationField) : String := f.username

/-- GetPassword accessor. -/
def GetPassword (f : RtspHeaderAuthorizationField) : String := f.password

/-- GetMethod accessor. -/
def GetMethod (f : RtspHeaderAuthorizationField) : String := f.method

/-- GetRealm accessor. -/
def GetRealm (f : RtspHeaderAuthorizationField) : String := f.realm

/-- GetUri accessor. -/
def GetUri (f : RtspHeaderAuthorizationField) : String := f.uri

/-- GetNonce accessor. -/
def GetNonce (f : RtspHeaderAuthorizationField) : String := f.nonce

/-- GetResponse accessor. -/
def GetResponse (f : RtspHeaderAuthorizationField) : String := f.response

/-- GetValue: the wire value most recently stored by SetContent
(modelled from the spec section 4.1). -/
def GetValue (f : RtspHeaderAuthorizationField) : String := f.value

/-- Parse: returns false on every message and leaves the field state
untouched (the source body is "Not implemented for now; return false"). -/
def Parse (f : RtspHeaderAuthorizationField) (message : String) :
    Bool × RtspHeaderAuthorizationField :=
  (false, f)

end RtspHeaderAuthorizationField

/-- The three-step derivation as the spec words it: HA1 is the lowercase
hex of the digest of "username:realm:password", HA2 the lowercase hex of
the digest of "method:uri", and the response the lowercase hex of the
digest of "HA1:nonce:HA2", with literal ASCII colon separators. -/
def specDigestResponse (md5 : List Nat → List Nat)
    (username password method realm uri nonce : String) : String :=
  let HA1 := LowerCaseString (ToHexString (md5 (utf8Bytes
    (username ++ ":" ++ realm ++ ":" ++ password))))
  let HA2 := LowerCaseString (ToHexString (md5 (utf8Bytes
    (method ++ ":" ++ uri))))
  LowerCaseString (ToHexString (md5 (utf8Bytes
    (HA1 ++ ":" ++ nonce ++ ":" ++ HA2))))

/-- A concrete stand-in digest used to evaluate the model on concrete
inputs: length and byte sum, both reduced to a byte. -/
def mockDigest (bs : List Nat) : List Nat :=
  [bs.length % 256, bs.foldl (fun a b => (a + b) % 256) 0]

/-- The consistency invariant of the spec data model: the stored response
matches the derivation the current scheme prescribes from the current
values of the stored fields; no constraint while the scheme is Unknown. -/
def ResponseConsistent (md5 : List Nat → List Nat)
    (f : RtspHeaderAuthorizationField) : Prop :=
  match f.scheme with
  | Scheme.Basic =>
      f.response = Base64Encode (utf8Bytes (f.username ++ ":" ++ f.password))
  | Scheme.Digest =>
      f.response = specDigestResponse md5
        f.username f.password f.method f.realm f.uri f.nonce
  | Scheme.Unknown => True

/-- A concrete Digest credential used to evaluate theorems with
hypotheses on concrete inputs. -/
def sampleDigestField : RtspHeaderAuthorizationField :=
  RtspHeaderAuthorizationField.init.SetDigestAuth mockDigest
    "alice" "wonderland" "DESCRIBE" "streaming"
    "rtsp://host/live/stream1" "abc123"

example :
    (RtspHeaderAuthorizationField.init.SetBasicAuth "bob" "pass").response =
    "Ym9iOnBhc3M=" := by decide

example :
    (RtspHeaderAuthorizationField.init.SetBasicAuth "bob" "pass").value =
    "Basic Ym9iOnBhc3M=" := by decide

example :
    base64DecodeChars (base64EncodeChars (utf8Bytes "bob:pass")) =
    utf8Bytes "bob:pass" := by decide

example :
    (RtspHeaderAuthorizationField.init.SetDigestAuth mockDigest
      "alice" "wonderland" "DESCRIBE" "streaming"
      "rtsp://host/live/stream1" "abc123").response =
    specDigestResponse mockDigest
      "alice" "wonderland" "DESCRIBE" "streaming"
      "rtsp://host/live/stream1" "abc123" := by decide

/-! ### Helper lemmas -/

/-- The base64 alphabet position of an alphabet character recovers the
sextet it encodes. -/
theorem charSextet_sextetChar : ∀ s : Nat, s < 64 → charSextet (sextetChar s) = s := by
  decide

/-- No base64 alphabet character is the padding character. -/
theorem sextetChar_ne_pad : ∀ s : Nat, s < 64 → sextetChar s ≠ '=' := by
  decide

/-- Decoding inverts encoding on byte lists. -/
theorem base64_decode_encode (bs : List Nat) (h : ∀ b ∈ bs, b < 256) :
    base64DecodeChars (base64EncodeChars bs) = bs := by
  induction bs using base64EncodeChars.induct with
  | case1 => rfl
  | case2 a =>
      have ha : a < 256 := h a (by simp)
      simp only [base64EncodeChars, base64DecodeChars, if_pos]
      rw [charSextet_sextetChar _ (by omega), charSextet_sextetChar _ (by omega)]
      simp only [List.cons.injEq, and_true]
      omega
  | case3 a b =>
      have ha : a < 256 := h a (by simp)
      have hb : b < 256 := h b (by simp)
      simp only [base64EncodeChars, base64DecodeChars]
      rw [if_neg (sextetChar_ne_pad _ (by omega)), if_pos trivial]
      rw [charSextet_sextetChar _ (by omega), charSextet_sextetChar _ (by omega),
          charSextet_sextetChar _ (by omega)]
      simp only [List.cons.injEq, and_true]
      omega
  | case4 a b c rest ih =>
      have ha : a < 256 := h a (by simp)
      have hb : b < 256 := h b (by simp)
      have hc : c < 256 := h c (by simp)
      have hrest : ∀ x ∈ rest, x < 256 := fun x hx => h x (by simp [hx])
      simp only [base64EncodeChars, base64DecodeChars]
      rw [if_neg (sextetChar_ne_pad _ (by omega)), if_neg (sextetChar_ne_pad _ (by omega))]
      rw [charSextet_sextetChar _ (by omega), charSextet_sextetChar _ (by omega),
          charSextet_sextetChar _ (by omega), charSextet_sextetChar _ (by omega)]
      rw [ih hrest]
      simp only [List.cons.injEq, and_true, true_and]
      refine ⟨by omega, by omega, by omega⟩

/-- Every code point of a Char is below the Unicode bound. -/
theorem char_toNat_lt (c : Char) : c.toNat < 1114112 := by
  rcases c.valid with h | h
  · exact Nat.lt_trans h (by norm_num)
  · exact h.2

/-- UTF-8 encoding of a valid code point produces bytes. -/
theorem utf8EncodeChar_lt (n : Nat) (hn : n < 1114112) :
    ∀ b ∈ utf8EncodeChar n, b < 256 := by
  unfold utf8EncodeChar
  split_ifs with h1 h2 h3 <;> intro b hb <;>
    simp only [List.mem_cons, List.not_mem_nil, or_false] at hb <;> omega

/-- The UTF-8 bytes of a string are bytes. -/
theorem utf8Bytes_lt (s : String) : ∀ b ∈ utf8Bytes s, b < 256 := by
  intro b hb
  unfold utf8Bytes at hb
  rw [List.mem_flatMap] at hb
  obtain ⟨c, _, hbc⟩ := hb
  exact utf8EncodeChar_lt c.toNat (char_toNat_lt c) b hbc

/-- Lowercasing fixes every lowercase hex digit. -/
theorem toLower_hex : ∀ c ∈ hexCharsLower, Char.toLower c = c := by
  decide

/-- Looking up a nibble in the hex digit table lands in the table. -/
theorem getD_hex_mem : ∀ m : Nat, m < 16 → hexCharsLower.getD m '0' ∈ hexCharsLower := by
  decide

/-- Every character of a lowercased hex rendering is a lowercase hex
digit. -/
theorem lowerCase_toHex_mem (bs : List Nat) :
    ∀ c ∈ (LowerCaseString (ToHexString bs)).data, c ∈ hexCharsLower := by
  intro c hc
  simp only [LowerCaseString, ToHexString, List.mem_map, List.mem_flatMap] at hc
  obtain ⟨d, ⟨b, _, hd⟩, hcd⟩ := hc
  have hdmem : d ∈ hexCharsLower := by
    simp only [hexDigitLower, List.mem_cons, List.not_mem_nil, or_false] at hd
    rcases hd with h | h <;> subst h <;>
      exact getD_hex_mem _ (Nat.mod_lt _ (by norm_num))
  rw [← hcd, toLower_hex d hdmem]
  exact hdmem

/-! ### Claims -/

/-- Claim C1: for every username, password, method, realm, uri, nonce
(over any digest function and any prior field state), the Digest
credential response stored by SetDigestAuth equals the three-step
derivation HA1/HA2/response of the spec with literal colon separators,
and every character of the stored response is a lowercase hex digit. -/
theorem C1_digest_response_derivation (md5 : List Nat → List Nat)
    (f : RtspHeaderAuthorizationField)
    (username password method realm uri nonce : String) :
    (f.SetDigestAuth md5 username password method realm uri nonce).GetResponse
      = specDigestResponse md5 username password method realm uri nonce ∧
    ∀ c ∈ ((f.SetDigestAuth md5 username password method realm uri
        nonce).GetResponse).data, c ∈ hexCharsLower :=
  ⟨rfl, fun c hc => lowerCase_toHex_mem _ c hc⟩

/-- Claim C2: the rendered wire value of a Digest credential is exactly
the literal Digest scheme token followed by username, realm, nonce, uri
and response, in this order, each double-quoted, comma-space separated. -/
theorem C2_digest_rendered_value (md5 : List Nat → List Nat)
    (f : RtspHeaderAuthorizationField)
    (username password method realm uri nonce : String) :
    (f.SetDigestAuth md5 username password method realm uri nonce).GetValue =
      "Digest username=\"" ++ username ++ "\", realm=\"" ++ realm ++
      "\", nonce=\"" ++ nonce ++ "\", uri=\"" ++ uri ++ "\", response=\"" ++
      (f.SetDigestAuth md5 username password method realm uri
        nonce).GetResponse ++ "\"" :=
  rfl

/-- Claim C3: for every username and password, empty included,
SetBasicAuth stores as response the base64 encoding of the UTF-8 bytes of
"username:password", base64-decoding that response returns exactly those
bytes, and the rendered value is the Basic scheme token, a space, and the
response. -/
theorem C3_basic_roundtrip (f : RtspHeaderAuthorizationField)
    (username password : String) :
    (f.SetBasicAuth username password).GetResponse =
      Base64Encode (utf8Bytes (username ++ ":" ++ password)) ∧
    base64DecodeChars ((f.SetBasicAuth username password).GetResponse).data =
      utf8Bytes (username ++ ":" ++ password) ∧
    (f.SetBasicAuth username password).GetValue =
      "Basic " ++ (f.SetBasicAuth username password).GetResponse :=
  ⟨rfl, base64_decode_encode _ (utf8Bytes_lt _), rfl⟩

/-- Claim C4: after every operation (SetBasicAuth, SetDigestAuth,
UpdateDigestAuth) on any state and inputs, the stored response is
consistent with the current values of the other stored fields under the
current scheme. -/
theorem C4_response_invariant (md5 : List Nat → List Nat)
    (f : RtspHeaderAuthorizationField)
    (u p username password method realm uri nonce m2 u2 : String) :
    ResponseConsistent md5 (f.SetBasicAuth u p) ∧
    ResponseConsistent md5
      (f.SetDigestAuth md5 username password method realm uri nonce) ∧
    ResponseConsistent md5 (f.UpdateDigestAuth md5 m2 u2) :=
  ⟨rfl, rfl, rfl⟩

/-- Claim C5: on a Digest credential, UpdateDigestAuth replaces only the
method and uri, re-derives the response and the rendered value from the
previously stored username, password, realm and nonce, and leaves those
four fields unchanged. -/
theorem C5_update_frame (md5 : List Nat → List Nat)
    (f : RtspHeaderAuthorizationField)
    (h : f.GetScheme = Scheme.Digest) (method uri : String) :
    (f.UpdateDigestAuth md5 method uri).GetUsername = f.GetUsername ∧
    (f.UpdateDigestAuth md5 method uri).GetPassword = f.GetPassword ∧
    (f.UpdateDigestAuth md5 method uri).GetRealm = f.GetRealm ∧
    (f.UpdateDigestAuth md5 method uri).GetNonce = f.GetNonce ∧
    (f.UpdateDigestAuth md5 method uri).GetMethod = method ∧
    (f.UpdateDigestAuth md5 method uri).GetUri = uri ∧
    (f.UpdateDigestAuth md5 method uri).GetResponse =
      specDigestResponse md5 f.GetUsername f.GetPassword method
        f.GetRealm uri f.GetNonce ∧
    (f.UpdateDigestAuth md5 method uri).GetValue =
      "Digest username=\"" ++ f.GetUsername ++ "\", realm=\"" ++
      f.GetRealm ++ "\", nonce=\"" ++ f.GetNonce ++ "\", uri=\"" ++ uri ++
      "\", response=\"" ++
      (f.UpdateDigestAuth md5 method uri).GetResponse ++ "\"" :=
  ⟨rfl, rfl, rfl, rfl, rfl, rfl, rfl, rfl⟩

/-- Witness for C5 at a concrete Digest credential. -/
theorem C5_update_frame_witness :
    sampleDigestField.GetScheme = Scheme.Digest ∧
    ((sampleDigestField.UpdateDigestAuth mockDigest "SETUP"
        "rtsp://host/live/stream2").GetUsername =
      sampleDigestField.GetUsername ∧
    (sampleDigestField.UpdateDigestAuth mockDigest "SETUP"
        "rtsp://host/live/stream2").GetPassword =
      sampleDigestField.GetPassword ∧
    (sampleDigestField.UpdateDigestAuth mockDigest "SETUP"
        "rtsp://host/live/stream2").GetRealm =
      sampleDigestField.GetRealm ∧
    (sampleDigestField.UpdateDigestAuth mockDigest "SETUP"
        "rtsp://host/live/stream2").GetNonce =
      sampleDigestField.GetNonce ∧
    (sampleDigestField.UpdateDigestAuth mockDigest "SETUP"
        "rtsp://host/live/stream2").GetMethod = "SETUP" ∧
    (sampleDigestField.UpdateDigestAuth mockDigest "SETUP"
        "rtsp://host/live/stream2").GetUri = "rtsp://host/live/stream2" ∧
    (sampleDigestField.UpdateDigestAuth mockDigest "SETUP"
        "rtsp://host/live/stream2").GetResponse =
      specDigestResponse mockDigest sampleDigestField.GetUsername
        sampleDigestField.GetPassword "SETUP" sampleDigestField.GetRealm
        "rtsp://host/live/stream2" sampleDigestField.GetNonce ∧
    (sampleDigestField.UpdateDigestAuth mockDigest "SETUP"
        "rtsp://host/live/stream2").GetValue =
      "Digest username=\"" ++ sampleDigestField.GetUsername ++
      "\", realm=\"" ++ sampleDigestField.GetRealm ++ "\", nonce=\"" ++
      sampleDigestField.GetNonce ++ "\", uri=\"" ++
      "rtsp://host/live/stream2" ++ "\", response=\"" ++
      (sampleDigestField.UpdateDigestAuth mockDigest "SETUP"
        "rtsp://host/live/stream2").GetResponse ++ "\"") :=
  ⟨rfl, C5_update_frame mockDigest sampleDigestField rfl "SETUP"
    "rtsp://host/live/stream2"⟩

/-- Claim C6: on a Digest credential, calling UpdateDigestAuth twice with
the same method and uri yields the same response after each call, and the
second call leaves the entire state identical to the state after the
first. -/
theorem C6_update_idempotent (md5 : List Nat → List Nat)
    (f : RtspHeaderAuthorizationField)
    (h : f.GetScheme = Scheme.Digest) (method uri : String) :
    ((f.UpdateDigestAuth md5 method uri).UpdateDigestAuth md5 method
        uri).GetResponse = (f.UpdateDigestAuth md5 method uri).GetResponse ∧
    (f.UpdateDigestAuth md5 method uri).UpdateDigestAuth md5 method uri =
      f.UpdateDigestAuth md5 method uri :=
  ⟨rfl, rfl⟩

/-- Witness for C6 at a concrete Digest credential. -/
theorem C6_update_idempotent_witness :
    sampleDigestField.GetScheme = Scheme.Digest ∧
    (((sampleDigestField.UpdateDigestAuth mockDigest "SETUP"
        "rtsp://host/live/stream2").UpdateDigestAuth mockDigest "SETUP"
        "rtsp://host/live/stream2").GetResponse =
      (sampleDigestField.UpdateDigestAuth mockDigest "SETUP"
        "rtsp://host/live/stream2").GetResponse ∧
    (sampleDigestField.UpdateDigestAuth mockDigest "SETUP"
        "rtsp://host/live/stream2").UpdateDigestAuth mockDigest "SETUP"
        "rtsp://host/live/stream2" =
      sampleDigestField.UpdateDigestAuth mockDigest "SETUP"
        "rtsp://host/live/stream2") :=
  ⟨rfl, C6_update_idempotent mockDigest sampleDigestField rfl "SETUP"
    "rtsp://host/live/stream2"⟩

/-- Counterexample to claim C7: on the freshly constructed credential,
reading the response and the rendered value succeeds and returns the
empty string, an empty-but-successful value, not a not-ready signal. -/
theorem C7_counterexample :
    RtspHeaderAuthorizationField.init.GetResponse = "" ∧
    RtspHeaderAuthorizationField.init.GetValue = "" :=
  ⟨rfl, rfl⟩

/-- Claim C7 as amended: on a freshly constructed credential the scheme
reads as Unknown, and reading the response or the rendered value returns
the empty string with no explicit not-ready signal. -/
theorem C7_uninitialized_reads :
    RtspHeaderAuthorizationField.init.GetScheme = Scheme.Unknown ∧
    RtspHeaderAuthorizationField.init.GetResponse = "" ∧
    RtspHeaderAuthorizationField.init.GetValue = "" :=
  ⟨rfl, rfl, rfl⟩

set_option maxRecDepth 8192 in
/-- Counterexample to claim C8: UpdateDigestAuth invoked on the
uninitialized credential is not rejected; it silently produces a Digest
credential whose rendered value is derived from the empty stored
username, password, realm and nonce. -/
theorem C8_counterexample :
    (RtspHeaderAuthorizationField.init.UpdateDigestAuth mockDigest
        "DESCRIBE" "rtsp://host/live/stream1").GetScheme = Scheme.Digest ∧
    (RtspHeaderAuthorizationField.init.UpdateDigestAuth mockDigest
        "DESCRIBE" "rtsp://host/live/stream1").GetValue =
      "Digest username=\"\", realm=\"\", nonce=\"\", uri=\"rtsp://host/live/stream1\", response=\"0a0f\"" :=
  ⟨rfl, by decide⟩

/-- Claim C8 as amended: UpdateDigestAuth performs no state check; on any
credential whose scheme is not Digest (Basic or uninitialized) it
proceeds, sets the scheme to Digest, and silently renders a value derived
from the stored username, password, realm and nonce. -/
theorem C8_no_state_check (md5 : List Nat → List Nat)
    (f : RtspHeaderAuthorizationField)
    (h : f.GetScheme ≠ Scheme.Digest) (method uri : String) :
    (f.UpdateDigestAuth md5 method uri).GetScheme = Scheme.Digest ∧
    (f.UpdateDigestAuth md5 method uri).GetValue =
      "Digest username=\"" ++ f.GetUsername ++ "\", realm=\"" ++
      f.GetRealm ++ "\", nonce=\"" ++ f.GetNonce ++ "\", uri=\"" ++ uri ++
      "\", response=\"" ++
      specDigestResponse md5 f.GetUsername f.GetPassword method
        f.GetRealm uri f.GetNonce ++ "\"" :=
  ⟨rfl, rfl⟩

/-- Witness for the amended C8 at the uninitialized credential. -/
theorem C8_no_state_check_witness :
    RtspHeaderAuthorizationField.init.GetScheme ≠ Scheme.Digest ∧
    ((RtspHeaderAuthorizationField.init.UpdateDigestAuth mockDigest
        "DESCRIBE" "rtsp://host/live/stream1").GetScheme = Scheme.Digest ∧
    (RtspHeaderAuthorizationField.init.UpdateDigestAuth mockDigest
        "DESCRIBE" "rtsp://host/live/stream1").GetValue =
      "Digest username=\"" ++ RtspHeaderAuthorizationField.init.GetUsername ++
      "\", realm=\"" ++ RtspHeaderAuthorizationField.init.GetRealm ++
      "\", nonce=\"" ++ RtspHeaderAuthorizationField.init.GetNonce ++
      "\", uri=\"" ++ "rtsp://host/live/stream1" ++ "\", response=\"" ++
      specDigestResponse mockDigest
        RtspHeaderAuthorizationField.init.GetUsername
        RtspHeaderAuthorizationField.init.GetPassword "DESCRIBE"
        RtspHeaderAuthorizationField.init.GetRealm
        "rtsp://host/live/stream1"
        RtspHeaderAuthorizationField.init.GetNonce ++ "\"") :=
  ⟨by decide, C8_no_state_check mockDigest RtspHeaderAuthorizationField.init
    (by decide) "DESCRIBE" "rtsp://host/live/stream1"⟩

/-- Claim C9: Parse returns false on every input message and leaves the
credential state untouched; the unsupported parse is an explicit failure,
never a silently produced parsed value. -/
theorem C9_parse_always_fails (f : RtspHeaderAuthorizationField)
    (message : String) :
    f.Parse message = (false, f) :=
  rfl

/-- Claim C10: SetBasicAuth leaves the method, realm, uri and nonce
fields unchanged, so after converting a Digest credential to Basic, the
accessors still return the earlier Digest session values while the scheme
reads as Basic. -/
theorem C10_basic_preserves_digest_fields (md5 : List Nat → List Nat)
    (f : RtspHeaderAuthorizationField)
    (username password method realm uri nonce u2 p2 : String) :
    ((f.SetDigestAuth md5 username password method realm uri
        nonce).SetBasicAuth u2 p2).GetMethod = method ∧
    ((f.SetDigestAuth md5 username password method realm uri
        nonce).SetBasicAuth u2 p2).GetRealm = realm ∧
    ((f.SetDigestAuth md5 username password method realm uri
        nonce).SetBasicAuth u2 p2).GetUri = uri ∧
    ((f.SetDigestAuth md5 username password method realm uri
        nonce).SetBasicAuth u2 p2).GetNonce = nonce ∧
    ((f.SetDigestAuth md5 username password method realm uri
        nonce).SetBasicAuth u2 p2).GetScheme = Scheme.Basic :=
  ⟨rfl, rfl, rfl, rfl, rfl⟩
